import Mathlib

/-
  Verification of the chunked transcoding pipeline and encoding-state machine
  of files/models.py (CinemataCMS).

  The Python code is shallowly embedded: Django model rows become Lean
  structures, querysets become list filters over an explicit database list,
  and the post_save signal handler `encoding_file_save` becomes an explicit
  state-transforming function.  Exceptions raised by the Python code are
  modelled with `Except`.
-/

namespace Cinemata

/-- One row of the EncodeProfile table (files/models.py, class EncodeProfile).
`resolution` is nullable (gif profiles have no resolution). -/
structure EncodeProfile where
  id : Nat
  extension : String
  resolution : Option Int
  codec : Option String
  active : Bool
deriving DecidableEq

/-- One row of the Encoding table (files/models.py, class Encoding).
`media` and `profile` are foreign keys (row ids).  `media_file` is the stored
output artifact path, with `""` standing for an empty FileField.
`chunks_info` is the raw chunk-set manifest text (a TextField, `""` when
blank).  Timestamps are seconds. -/
structure Encoding where
  id : Nat
  media : Nat
  profile : Nat
  status : String
  chunk : Bool
  chunks_info : String
  chunk_file_path : String
  media_file : String
  logs : String
  worker : String
  progress : Int
  total_run_time : Nat
  add_date : Nat
  update_date : Nat
deriving DecidableEq

/-- Encoding.set_progress (files/models.py lines 1075-1081): accept and store
an integer progress only when it lies in 0..100; otherwise report `false` and
leave the row unchanged.  The `isinstance(progress, int)` guard of the source
is reflected by the `Int` domain of the argument. -/
def set_progress (e : Encoding) (progress : Int) : Bool × Encoding :=
  if 0 ≤ progress ∧ progress ≤ 100 then
    (true, { e with progress := progress })
  else
    (false, e)

/-- Profile lookup through the Encoding.profile foreign key. -/
def lookupProfile (profiles : List EncodeProfile) (pid : Nat) : Option EncodeProfile :=
  profiles.find? (fun p => p.id == pid)

/-- The join `profile__extension == ext` used by Media.set_encoding_status. -/
def hasExtension (profiles : List EncodeProfile) (pid : Nat) (ext : String) : Bool :=
  match lookupProfile profiles pid with
  | some p => p.extension == ext
  | none => false

/-- The statuses of the non-chunk mp4 encodings of a media
(files/models.py lines 572-577: `self.encodings.filter(profile__extension="mp4",
chunk=False)`).  The source collects them into a Python set; a list is kept
here and only membership / emptiness are ever used, matching set semantics. -/
def mp4_statuses (profiles : List EncodeProfile) (db : List Encoding) (media : Nat) : List String :=
  (db.filter (fun e => e.media == media && hasExtension profiles e.profile "mp4" && e.chunk == false)).map
    (fun e => e.status)

/-- The precedence rule of Media.set_encoding_status (files/models.py
lines 579-587) as a function of the collected statuses. -/
def status_resolver (sts : List String) : String :=
  if sts = [] then "pending"
  else if "success" ∈ sts then "success"
  else if "running" ∈ sts then "running"
  else "fail"

/-- Media.set_encoding_status (files/models.py lines 570-588): the media-level
aggregate encoding status. -/
def set_encoding_status (profiles : List EncodeProfile) (db : List Encoding) (media : Nat) : String :=
  status_resolver (mp4_statuses profiles db media)

/-- The configuration used by Media.encode: settings.CHUNKIZE_VIDEO_DURATION
and settings.MINIMUM_RESOLUTIONS_TO_ENCODE. -/
structure EncodeSettings where
  chunkize_video_duration : Int
  minimum_resolutions_to_encode : List Int
deriving DecidableEq

/-- One asynchronous dispatch performed by Media.encode: either a single
whole-file encode task (tasks.encode_media.apply_async) together with the
`chunk` flag of the Encoding row it created (always the model default
`false`, since Media.encode never sets `chunk`), or a chunking request
(tasks.chunkize_media.delay) carrying the profile ids to be chunked. -/
inductive Dispatch where
  | encode_media (profileId : Nat) (isChunk : Bool) (priority : Nat)
  | chunkize_media (profileIds : List Nat)
deriving DecidableEq

/-- Python membership test `profile.resolution in settings.MINIMUM_RESOLUTIONS_TO_ENCODE`
on a nullable resolution: None is a member of no list of ints. -/
def resolution_in (res : Option Int) (allowed : List Int) : Bool :=
  match res with
  | some r => allowed.contains r
  | none => false

/-- The `continue` condition of Media.encode (files/models.py lines 531-534):
a profile is skipped iff it is not gif, the media has a truthy video_height
(`self.video_height and ...`), the height is below the profile resolution and
that resolution is not in the always-encode allow-set. -/
def skip_profile (st : EncodeSettings) (video_height : Nat) (p : EncodeProfile) : Bool :=
  p.extension != "gif" &&
  (video_height != 0 &&
    (match p.resolution with
     | some r => decide ((video_height : Int) < r)
     | none => false)) &&
  !(resolution_in p.resolution st.minimum_resolutions_to_encode)

/-- The priority computed at files/models.py line 538:
`9 if profile.resolution in settings.MINIMUM_RESOLUTIONS_TO_ENCODE else 0`. -/
def whole_priority (st : EncodeSettings) (p : EncodeProfile) : Nat :=
  if resolution_in p.resolution st.minimum_resolutions_to_encode then 9 else 0

/-- Media.encode (files/models.py lines 508-545) as the list of dispatches it
performs, in order.  If `duration > CHUNKIZE_VIDEO_DURATION and chunkize`,
gif profiles are removed from the chunked set and each dispatched as a single
whole-file job with priority 0, and the remaining profile ids are sent as one
chunking request; otherwise every profile surviving the skip rule is
dispatched as a whole-file job with its computed priority. -/
def encode (st : EncodeSettings) (duration : Int) (video_height : Nat)
    (profiles : List EncodeProfile) (chunkize : Bool) : List Dispatch :=
  if st.chunkize_video_duration < duration ∧ chunkize = true then
    ((profiles.filter (fun p => p.extension == "gif")).map
      (fun p => Dispatch.encode_media p.id false 0))
    ++ [Dispatch.chunkize_media
          ((profiles.filter (fun p => p.extension != "gif")).map (fun p => p.id))]
  else
    (profiles.filter (fun p => !(skip_profile st video_height p))).map
      (fun p => Dispatch.encode_media p.id false (whole_priority st p))

/-- The dictionary returned by helpers.media_file_info, restricted to the keys
Media.set_media_type reads.  Durations are probed as floating point numbers,
modelled as rationals. -/
structure MediaFileInfo where
  fail : Bool
  is_video : Bool
  is_audio : Bool
  video_duration : ℚ
  video_height : Int
  audio_duration : ℚ
deriving DecidableEq

/-- The fields of a Media row that Media.set_media_type reads and writes. -/
structure MediaState where
  media_type : String
  encoding_status : String
  duration : Int
  video_height : Int
deriving DecidableEq

/-- Python round() with no digits argument: round half to even, applied to a
rational.  This embeds `int(round(float(x)))` from files/models.py line 436. -/
def pyRound (q : ℚ) : Int :=
  if q - ⌊q⌋ < 1/2 then ⌊q⌋
  else if 1/2 < q - ⌊q⌋ then ⌊q⌋ + 1
  else if ⌊q⌋ % 2 = 0 then ⌊q⌋ else ⌊q⌋ + 1

/-- Python int() applied to a float: truncation toward zero.  This embeds
`int(float(...))` from files/models.py line 440. -/
def pyTrunc (q : ℚ) : Int :=
  if q < 0 then ⌈q⌉ else ⌊q⌋

/-- The kind-classification block of Media.set_media_type (files/models.py
lines 405-414): helpers.get_file_type result `kind` overrides media_type,
with everything that is neither image, pdf nor audio classified as video;
a None kind leaves media_type untouched. -/
def kind_media_type (kind : Option String) (m : MediaState) : MediaState :=
  match kind with
  | some k =>
      if k = "image" then { m with media_type := "image" }
      else if k = "pdf" then { m with media_type := "pdf" }
      else if k = "audio" then { m with media_type := "audio" }
      else { m with media_type := "video" }
  | none => m

/-- Media.set_media_type (files/models.py lines 403-455).  `kind` is the
result of helpers.get_file_type and `ret` the probe dictionary of
helpers.media_file_info (only consulted on the non-image, non-pdf path). -/
def set_media_type (kind : Option String) (ret : MediaFileInfo) (m : MediaState) : MediaState :=
  let m1 := kind_media_type kind m
  if m1.media_type = "image" ∨ m1.media_type = "pdf" then
    { m1 with encoding_status := "success" }
  else
    let m2 :=
      if ret.fail then { m1 with media_type := "", encoding_status := "fail" }
      else if ret.is_video || ret.is_audio then m1
      else { m1 with media_type := "", encoding_status := "fail" }
    if ret.is_video then
      { m2 with media_type := "video",
                duration := pyRound ret.video_duration,
                video_height := ret.video_height }
    else if ret.is_audio then
      { m2 with media_type := "audio",
                duration := pyTrunc ret.audio_duration,
                encoding_status := "success" }
    else m2

/-- Media.media_init (files/models.py lines 389-395) calls self.encode() --
i.e. transcoding follows the probe -- exactly when the probed media_type is
"video". -/
def media_init_encodes (m : MediaState) : Bool :=
  m.media_type == "video"

/-- Stable insertion of a row into a list ordered by add_date, used to embed
the queryset ordering `.order_by("add_date")`. -/
def insert_by_add (e : Encoding) : List Encoding → List Encoding
  | [] => [e]
  | x :: xs => if e.add_date ≤ x.add_date then e :: x :: xs else x :: insert_by_add e xs

/-- Sorting by add_date, embedding `.order_by("add_date")`. -/
def sort_by_add : List Encoding → List Encoding
  | [] => []
  | x :: xs => insert_by_add x (sort_by_add xs)

/-- The sibling query of the Coordinator success path (files/models.py
lines 1537-1542): all chunk rows of the same media AND profile carrying the
same chunks_info manifest, ordered by add_date. -/
def chunk_siblings (db : List Encoding) (inst : Encoding) : List Encoding :=
  sort_by_add (db.filter (fun r =>
    r.media == inst.media && r.profile == inst.profile &&
    r.chunks_info == inst.chunks_info && r.chunk))

/-- The sibling query of the Coordinator failure path (files/models.py
lines 1624-1626): all chunk rows of the same media carrying the same
chunks_info manifest -- note the absence of a profile filter in the source --
ordered by add_date. -/
def fail_siblings (db : List Encoding) (inst : Encoding) : List Encoding :=
  sort_by_add (db.filter (fun r =>
    r.media == inst.media && r.chunks_info == inst.chunks_info && r.chunk))

/-- The completeness check of the Coordinator (files/models.py lines
1544-1553): every expected manifest boundary must have a sibling row whose
chunk_file_path equals it, and every sibling row must have a stored output
artifact (an empty media_file makes the set incomplete). -/
def is_complete (orig_chunks : List String) (chunks : List Encoding) : Bool :=
  orig_chunks.all (fun c => chunks.any (fun r => r.chunk_file_path == c)) &&
  chunks.all (fun r => r.media_file != "")

/-- The worker aggregation `list({st.worker for st in chunks})`
(files/models.py lines 1592, 1631): the deduplicated list of sibling
workers. -/
def workers_of (chunks : List Encoding) : List String :=
  (chunks.map (fun r => r.worker)).eraseDups

/-- json.dumps applied to a one-key dictionary of a list of worker names
(files/models.py lines 1593, 1632). -/
def dump_workers (ws : List String) : String :=
  "\x7b\"workers\": [" ++
    String.intercalate ", " (ws.map (fun w => "\"" ++ w ++ "\"")) ++ "]\x7d"

/-- The rendering of the python list `chunks_paths` inside an f-string
(files/models.py lines 1591, 1630). -/
def repr_paths (ps : List String) : String :=
  "[" ++ String.intercalate ", " ps ++ "]"

/-- `"\n".join(st.logs for st in chunks)` (files/models.py lines 1590, 1629). -/
def joined_logs (chunks : List Encoding) : String :=
  String.intercalate "\n" (chunks.map (fun r => r.logs))

/-- `min(st.add_date for st in chunks)` over a nonempty sibling list. -/
def min_add : List Encoding → Nat
  | [] => 0
  | x :: xs => xs.foldl (fun a r => Nat.min a r.add_date) x.add_date

/-- `max(st.update_date for st in chunks)` over a nonempty sibling list. -/
def max_update : List Encoding → Nat
  | [] => 0
  | x :: xs => xs.foldl (fun a r => Nat.max a r.update_date) x.update_date

/-- `(end_date - start_date).seconds` (files/models.py lines 1595-1597,
1633-1635): Python timedelta .seconds is the seconds part with whole days
dropped, i.e. the difference reduced modulo 86400. -/
def run_seconds (chunks : List Encoding) : Nat :=
  (max_update chunks - min_add chunks) % 86400

/-- The non-chunk success Encoding synthesized by the Coordinator after
concatenation (files/models.py lines 1584-1603).  `chunk`, `chunks_info` and
`chunk_file_path` keep their model defaults (False resp. blank); `out_name`
is the concatenated artifact name saved into media_file and `concat_out` the
captured stdout of the ffmpeg concat command. -/
def assembled_encoding (db : List Encoding) (inst : Encoding) (newId now : Nat)
    (out_name concat_out : String) : Encoding :=
  let chunks := chunk_siblings db inst
  { id := newId, media := inst.media, profile := inst.profile,
    status := "success", chunk := false, chunks_info := "",
    chunk_file_path := "", media_file := out_name,
    logs := repr_paths (chunks.map (fun r => r.media_file)) ++ "\n" ++
            concat_out ++ "\n" ++ joined_logs chunks,
    worker := dump_workers (workers_of chunks), progress := 100,
    total_run_time := run_seconds chunks, add_date := now, update_date := now }

/-- The final re-validation of the success path (files/models.py lines
1605-1614): recount the rows carrying this chunks_info for the (media,
profile) pair; on a match delete every other row of the pair and keep the new
encoding, otherwise delete the new encoding itself.  `db2` is the database as
observed at recount time (it already holds the new row `e`). -/
def recount_reconcile (origCount : Nat) (inst e : Encoding) (db2 : List Encoding) : List Encoding :=
  if origCount == (db2.filter (fun r =>
        r.media == inst.media && r.profile == inst.profile &&
        r.chunks_info == inst.chunks_info)).length then
    db2.filter (fun r => !(r.media == e.media && r.profile == e.profile && r.id != e.id))
  else
    db2.filter (fun r => r.id != e.id)

/-- The non-chunk fail Encoding synthesized by the Coordinator failure path
(files/models.py lines 1622-1636). -/
def failed_encoding (db : List Encoding) (inst : Encoding) (newId now : Nat) : Encoding :=
  let chunks := fail_siblings db inst
  { id := newId, media := inst.media, profile := inst.profile,
    status := "fail", chunk := false, chunks_info := "",
    chunk_file_path := "", media_file := "",
    logs := repr_paths (chunks.map (fun r => r.media_file)) ++ "\n" ++
            joined_logs chunks,
    worker := dump_workers (workers_of chunks), progress := 100,
    total_run_time := run_seconds chunks, add_date := now, update_date := now }

/-- The post_save signal handler encoding_file_save (files/models.py lines
1526-1646) as a database transformer.  `parse` embeds
`json.loads(...).keys()` (None when json.loads raises); `newId`/`now` are the
fresh primary key and timestamp handed out by the database for a synthesized
row.  The fail branch raises ValueError when any sibling lacks a stored
media_file, because `f.media_file.path` on an empty FileField raises; this is
modelled with `Except.error`.  Branches that only touch media-level status or
files on disk leave the row database unchanged. -/
def encoding_file_save (parse : String → Option (List String)) (db : List Encoding)
    (inst : Encoding) (newId now : Nat) (out_name concat_out : String) :
    Except String (List Encoding) :=
  if inst.chunk && inst.status == "success" then
    if inst.media_file != "" then
      match parse inst.chunks_info with
      | none => Except.ok (db.filter (fun r => r.id != inst.id))
      | some orig_chunks =>
        let chunks := chunk_siblings db inst
        if is_complete orig_chunks chunks then
          let e := assembled_encoding db inst newId now out_name concat_out
          Except.ok (recount_reconcile orig_chunks.length inst e (db ++ [e]))
        else
          Except.ok db
    else
      Except.ok db
  else if inst.chunk && inst.status == "fail" then
    if (fail_siblings db inst).any (fun r => r.media_file == "") then
      Except.error "ValueError: The media_file attribute has no file associated with it."
    else
      let e := failed_encoding db inst newId now
      Except.ok ((db ++ [e]).filter (fun r =>
        !(r.media == e.media && r.profile == e.profile && r.id != e.id)))
  else
    Except.ok db

/-- The number of non-chunk success rows of a (media, profile) pair. -/
def nonchunk_success_count (db : List Encoding) (m p : Nat) : Nat :=
  (db.filter (fun r => r.media == m && r.profile == p && !r.chunk && r.status == "success")).length

end Cinemata
/-
  Concrete example data used by the witnesses and counterexamples below.
-/

/-- A concrete Encoding row used to exercise set_progress. -/
def c8_row : Cinemata.Encoding :=
  { id := 1, media := 0, profile := 0, status := "running", chunk := false,
    chunks_info := "", chunk_file_path := "", media_file := "", logs := "", worker := "",
    progress := 3, total_run_time := 0, add_date := 0, update_date := 0 }

/-- A chunk row whose chunk_file_path duplicates the single manifest boundary. -/
def c2_row_a : Cinemata.Encoding :=
  { id := 1, media := 0, profile := 0, status := "success", chunk := true,
    chunks_info := "ci", chunk_file_path := "a", media_file := "out1.mp4", logs := "", worker := "",
    progress := 100, total_run_time := 0, add_date := 0, update_date := 0 }

/-- A second chunk row carrying the same boundary path as c2_row_a. -/
def c2_row_b : Cinemata.Encoding :=
  { id := 2, media := 0, profile := 0, status := "success", chunk := true,
    chunks_info := "ci", chunk_file_path := "a", media_file := "out2.mp4", logs := "", worker := "",
    progress := 100, total_run_time := 0, add_date := 1, update_date := 1 }

/-- A successful chunk row whose chunks_info text is not parseable JSON. -/
def c10_inst : Cinemata.Encoding :=
  { id := 5, media := 3, profile := 2, status := "success", chunk := true,
    chunks_info := "not json", chunk_file_path := "c1", media_file := "c1.mp4",
    logs := "", worker := "w", progress := 100, total_run_time := 0,
    add_date := 0, update_date := 4 }

/-- An unrelated row of the same (media, profile) pair. -/
def c10_other : Cinemata.Encoding :=
  { id := 6, media := 3, profile := 2, status := "running", chunk := false,
    chunks_info := "", chunk_file_path := "", media_file := "",
    logs := "", worker := "w", progress := 10, total_run_time := 0,
    add_date := 0, update_date := 4 }

/-- A manifest parser knowing exactly the manifest text "ci" with one boundary. -/
def c1_parse : String → Option (List String) :=
  fun s => if s = "ci" then some ["c1"] else none

/-- The triggering chunk success row of a complete single-chunk set. -/
def c1_inst : Cinemata.Encoding :=
  { id := 1, media := 0, profile := 0, status := "success", chunk := true,
    chunks_info := "ci", chunk_file_path := "c1", media_file := "c1.mp4",
    logs := "L1", worker := "w1", progress := 100, total_run_time := 0,
    add_date := 0, update_date := 10 }

/-- A running, non-chunk, non-success job of the same (media, profile) pair. -/
def c1_running : Cinemata.Encoding :=
  { id := 2, media := 0, profile := 0, status := "running", chunk := false,
    chunks_info := "", chunk_file_path := "", media_file := "",
    logs := "", worker := "w2", progress := 10, total_run_time := 0,
    add_date := 0, update_date := 10 }

/-- A database where the recount matches yet a running job is deleted. -/
def c1_db : List Cinemata.Encoding := [c1_inst, c1_running]

/-- A failed chunk row with no stored output artifact (empty media_file). -/
def c3_inst : Cinemata.Encoding :=
  { id := 1, media := 0, profile := 0, status := "fail", chunk := true,
    chunks_info := "ci", chunk_file_path := "c1", media_file := "",
    logs := "boom", worker := "w1", progress := 50, total_run_time := 0,
    add_date := 0, update_date := 5 }

/-- A surviving non-chunk success job of the same (media, profile) pair. -/
def c3_success : Cinemata.Encoding :=
  { id := 2, media := 0, profile := 0, status := "success", chunk := false,
    chunks_info := "", chunk_file_path := "", media_file := "old.mp4",
    logs := "", worker := "w2", progress := 100, total_run_time := 7,
    add_date := 0, update_date := 7 }

/-- One active mp4 profile. -/
def c4_profiles : List Cinemata.EncodeProfile :=
  [{ id := 1, extension := "mp4", resolution := some 720, codec := some "h264", active := true }]

/-- Three non-chunk mp4 jobs with statuses fail, success and running. -/
def c4_db : List Cinemata.Encoding :=
  [{ id := 1, media := 0, profile := 1, status := "fail", chunk := false,
     chunks_info := "", chunk_file_path := "", media_file := "",
     logs := "", worker := "", progress := 100, total_run_time := 0, add_date := 0, update_date := 0 },
   { id := 2, media := 0, profile := 1, status := "success", chunk := false,
     chunks_info := "", chunk_file_path := "", media_file := "a.mp4",
     logs := "", worker := "", progress := 100, total_run_time := 0, add_date := 0, update_date := 0 },
   { id := 3, media := 0, profile := 1, status := "running", chunk := false,
     chunks_info := "", chunk_file_path := "", media_file := "",
     logs := "", worker := "", progress := 10, total_run_time := 0, add_date := 0, update_date := 0 }]

/-- Settings with a 3600s chunk threshold and 240 as an always-encode resolution. -/
def c5_st : Cinemata.EncodeSettings :=
  { chunkize_video_duration := 3600, minimum_resolutions_to_encode := [240] }

/-- A gif profile (no resolution). -/
def c5_gif : Cinemata.EncodeProfile :=
  { id := 2, extension := "gif", resolution := none, codec := none, active := true }

/-- An mp4 profile above the source height together with a gif profile. -/
def c5_profiles : List Cinemata.EncodeProfile :=
  [{ id := 1, extension := "mp4", resolution := some 1080, codec := some "h264", active := true },
   c5_gif]

/-- Settings with a 3600s chunk threshold and 240 as an always-encode resolution. -/
def c6_st : Cinemata.EncodeSettings :=
  { chunkize_video_duration := 3600, minimum_resolutions_to_encode := [240] }

/-- A gif profile (no resolution). -/
def c6_gif : Cinemata.EncodeProfile :=
  { id := 3, extension := "gif", resolution := none, codec := none, active := true }

/-- Two mp4 profiles and a gif profile, as in the 7200s scenario of the spec. -/
def c6_profiles : List Cinemata.EncodeProfile :=
  [{ id := 1, extension := "mp4", resolution := some 1080, codec := some "h264", active := true },
   { id := 2, extension := "mp4", resolution := some 720, codec := some "h264", active := true },
   c6_gif]

/-- Settings with 240 as the only always-encode resolution. -/
def c7_st : Cinemata.EncodeSettings :=
  { chunkize_video_duration := 3600, minimum_resolutions_to_encode := [240] }

/-- A 1080p mp4 profile, above a 720p source. -/
def c7_p : Cinemata.EncodeProfile :=
  { id := 1, extension := "mp4", resolution := some 1080, codec := some "h264", active := true }

/-- A probe result classifying the source as video with duration 3.5s. -/
def c9_ret : Cinemata.MediaFileInfo :=
  { fail := false, is_video := true, is_audio := false,
    video_duration := 7/2, video_height := 1080, audio_duration := 0 }

/-- A freshly uploaded media record before probing. -/
def c9_m : Cinemata.MediaState :=
  { media_type := "", encoding_status := "pending", duration := 0, video_height := 0 }

/-
  Helper lemmas.
-/

-- The aggregate status rule only depends on the statuses seen as a set.
theorem status_resolver_set_congr (l1 l2 : List String) (h : ∀ s, s ∈ l1 ↔ s ∈ l2) :
    Cinemata.status_resolver l1 = Cinemata.status_resolver l2 := by
  have hnil : l1 = [] ↔ l2 = [] := by
    constructor
    · intro h1
      apply List.eq_nil_iff_forall_not_mem.mpr
      intro a ha
      exact (List.eq_nil_iff_forall_not_mem.mp h1 a) ((h a).mpr ha)
    · intro h2
      apply List.eq_nil_iff_forall_not_mem.mpr
      intro a ha
      exact (List.eq_nil_iff_forall_not_mem.mp h2 a) ((h a).mp ha)
  unfold Cinemata.status_resolver
  by_cases h1 : l1 = []
  · simp [h1, hnil.mp h1]
  · have h2 : ¬ l2 = [] := fun hc => h1 (hnil.mpr hc)
    simp only [h1, h2, if_false]
    by_cases hs : "success" ∈ l1
    · simp [hs, (h _).mp hs]
    · have hs2 : "success" ∉ l2 := fun hc => hs ((h _).mpr hc)
      simp only [hs, hs2, if_false]
      by_cases hr : "running" ∈ l1
      · simp [hr, (h _).mp hr]
      · have hr2 : "running" ∉ l2 := fun hc => hr ((h _).mpr hc)
        simp [hr, hr2]

-- Python round() lands on a nearest integer: the distance is at most 1/2.
theorem pyRound_dist_le_half (q : ℚ) : |q - (Cinemata.pyRound q : ℚ)| ≤ 1/2 := by
  have h0 : (⌊q⌋ : ℚ) ≤ q := Int.floor_le q
  have h1 : q < ⌊q⌋ + 1 := Int.lt_floor_add_one q
  unfold Cinemata.pyRound
  by_cases hc1 : q - ⌊q⌋ < 1/2
  · rw [if_pos hc1, abs_le]
    constructor <;> linarith
  · rw [if_neg hc1]
    by_cases hc2 : 1/2 < q - ⌊q⌋
    · rw [if_pos hc2, abs_le]
      push_cast
      constructor <;> linarith
    · rw [if_neg hc2]
      have heq : q - ⌊q⌋ = 1/2 := le_antisymm (not_lt.mp hc2) (not_lt.mp hc1)
      by_cases hc3 : ⌊q⌋ % 2 = 0
      · rw [if_pos hc3, abs_le]
        constructor <;> linarith
      · rw [if_neg hc3, abs_le]
        push_cast
        constructor <;> linarith

-- When the file-type kind is neither image nor pdf (and a None kind does not
-- leave an image/pdf media_type in place), set_media_type reaches the probe branch.
theorem kind_media_type_reach (kind : Option String) (m : Cinemata.MediaState)
    (hk1 : kind ≠ some "image") (hk2 : kind ≠ some "pdf")
    (hk3 : kind = none → m.media_type ≠ "image" ∧ m.media_type ≠ "pdf") :
    (Cinemata.kind_media_type kind m).media_type ≠ "image" ∧
    (Cinemata.kind_media_type kind m).media_type ≠ "pdf" := by
  cases kind with
  | none => exact hk3 rfl
  | some k =>
    have hk1k : k ≠ "image" := fun hc => hk1 (by rw [hc])
    have hk2k : k ≠ "pdf" := fun hc => hk2 (by rw [hc])
    unfold Cinemata.kind_media_type
    by_cases ha : k = "audio"
    · simp [hk1k, hk2k, ha]
    · simp [hk1k, hk2k, ha]

-- Counting non-chunk success rows distributes over list append.
theorem ncc_append (a b : List Cinemata.Encoding) (m p : Nat) :
    Cinemata.nonchunk_success_count (a ++ b) m p =
      Cinemata.nonchunk_success_count a m p + Cinemata.nonchunk_success_count b m p := by
  unfold Cinemata.nonchunk_success_count
  rw [List.filter_append, List.length_append]

/-
  Claim theorems.
-/

/-- C1 counterexample: the claim says the Coordinator, when the post-assembly
recount still matches, "deletes only the other non-chunk success jobs" for the
(media, profile) pair.  On this concrete database the recount matches and the
handler nevertheless deletes c1_running, a non-chunk job in status "running"
(not a success job): only the newly assembled encoding survives. -/
theorem C1_counterexample :
    Cinemata.encoding_file_save c1_parse c1_db c1_inst 100 20 "out.mp4" "ff" =
      Except.ok [Cinemata.assembled_encoding c1_db c1_inst 100 20 "out.mp4" "ff"] ∧
    c1_running ∈ c1_db ∧ c1_running.chunk = false ∧ c1_running.status = "running" ∧
    (Cinemata.assembled_encoding c1_db c1_inst 100 20 "out.mp4" "ff").id ≠ c1_running.id := by
  refine ⟨rfl, by decide, rfl, rfl, by decide⟩

/-- C1 (amended): for every chunk-set whose completeness check passes, after
assembling the output the Coordinator recounts the rows carrying the same
manifest for the (media, profile) pair; if the count equals the number of
expected manifest boundaries it deletes ALL other jobs of that pair (chunk
rows and non-chunk jobs of any status, not only the other non-chunk success
jobs) and keeps the newly synthesized success job; if the count differs it
deletes the newly synthesized job itself and leaves the database unchanged.
Consequently the run never leaves more than max 1 (previous count) non-chunk
success jobs for the pair, and the other party's result is deleted only after
a recount that matched. -/
theorem C1_amended (parse : String → Option (List String)) (db : List Cinemata.Encoding)
    (inst : Cinemata.Encoding) (newId now : Nat) (out_name concat_out : String)
    (l : List String)
    (hchunk : inst.chunk = true) (hstatus : inst.status = "success")
    (hfile : inst.media_file ≠ "") (hci : inst.chunks_info ≠ "")
    (hparse : parse inst.chunks_info = some l)
    (hcomplete : Cinemata.is_complete l (Cinemata.chunk_siblings db inst) = true)
    (hfresh : ∀ r ∈ db, r.id ≠ newId) :
    (l.length = (db.filter (fun r => r.media == inst.media && r.profile == inst.profile &&
          r.chunks_info == inst.chunks_info)).length →
      Cinemata.encoding_file_save parse db inst newId now out_name concat_out =
        Except.ok ((db.filter (fun r => !(r.media == inst.media && r.profile == inst.profile)))
          ++ [Cinemata.assembled_encoding db inst newId now out_name concat_out])) ∧
    (l.length ≠ (db.filter (fun r => r.media == inst.media && r.profile == inst.profile &&
          r.chunks_info == inst.chunks_info)).length →
      Cinemata.encoding_file_save parse db inst newId now out_name concat_out =
        Except.ok db) ∧
    (∀ res, Cinemata.encoding_file_save parse db inst newId now out_name concat_out =
        Except.ok res →
      Cinemata.nonchunk_success_count res inst.media inst.profile ≤
        max 1 (Cinemata.nonchunk_success_count db inst.media inst.profile)) := by
  have he_media : (Cinemata.assembled_encoding db inst newId now out_name concat_out).media = inst.media := rfl
  have he_profile : (Cinemata.assembled_encoding db inst newId now out_name concat_out).profile = inst.profile := rfl
  have he_id : (Cinemata.assembled_encoding db inst newId now out_name concat_out).id = newId := rfl
  have he_ci : (Cinemata.assembled_encoding db inst newId now out_name concat_out).chunks_info = "" := rfl
  have he_chunk : (Cinemata.assembled_encoding db inst newId now out_name concat_out).chunk = false := rfl
  have he_status : (Cinemata.assembled_encoding db inst newId now out_name concat_out).status = "success" := rfl
  -- the handler takes the success-chunk branch, passes the completeness check
  -- and reaches the recount step
  have hrun : Cinemata.encoding_file_save parse db inst newId now out_name concat_out =
      Except.ok (Cinemata.recount_reconcile l.length inst
        (Cinemata.assembled_encoding db inst newId now out_name concat_out)
        (db ++ [Cinemata.assembled_encoding db inst newId now out_name concat_out])) := by
    unfold Cinemata.encoding_file_save
    simp only [hchunk, hstatus, hparse, hcomplete]
    simp [hfile]
  -- the recount over db ++ [e] sees exactly the rows of db carrying the manifest
  have hcount : ((db ++ [Cinemata.assembled_encoding db inst newId now out_name concat_out]).filter
        (fun r => r.media == inst.media && r.profile == inst.profile &&
          r.chunks_info == inst.chunks_info)).length =
      (db.filter (fun r => r.media == inst.media && r.profile == inst.profile &&
        r.chunks_info == inst.chunks_info)).length := by
    rw [List.filter_append]
    have hnil : ([Cinemata.assembled_encoding db inst newId now out_name concat_out].filter
        (fun r => r.media == inst.media && r.profile == inst.profile &&
          r.chunks_info == inst.chunks_info)) = [] := by
      apply List.filter_eq_nil_iff.mpr
      intro a ha
      have ha2 : a = Cinemata.assembled_encoding db inst newId now out_name concat_out := by
        simpa using ha
      subst ha2
      simp [he_ci, (by simpa using Ne.symm hci : ¬ ("" : String) = inst.chunks_info)]
    rw [hnil, List.append_nil]
  have hmatchEq : l.length = (db.filter (fun r => r.media == inst.media && r.profile == inst.profile &&
        r.chunks_info == inst.chunks_info)).length →
      Cinemata.encoding_file_save parse db inst newId now out_name concat_out =
        Except.ok ((db.filter (fun r => !(r.media == inst.media && r.profile == inst.profile)))
          ++ [Cinemata.assembled_encoding db inst newId now out_name concat_out]) := by
    intro hmatch
    rw [hrun]
    unfold Cinemata.recount_reconcile
    rw [if_pos (by rw [hcount]; simp [hmatch])]
    rw [List.filter_append]
    have h1 : [Cinemata.assembled_encoding db inst newId now out_name concat_out].filter
        (fun r => !(r.media == (Cinemata.assembled_encoding db inst newId now out_name concat_out).media &&
          r.profile == (Cinemata.assembled_encoding db inst newId now out_name concat_out).profile &&
          r.id != (Cinemata.assembled_encoding db inst newId now out_name concat_out).id)) =
        [Cinemata.assembled_encoding db inst newId now out_name concat_out] := by
      simp
    have h2 : db.filter
        (fun r => !(r.media == (Cinemata.assembled_encoding db inst newId now out_name concat_out).media &&
          r.profile == (Cinemata.assembled_encoding db inst newId now out_name concat_out).profile &&
          r.id != (Cinemata.assembled_encoding db inst newId now out_name concat_out).id)) =
        db.filter (fun r => !(r.media == inst.media && r.profile == inst.profile)) := by
      apply List.filter_congr
      intro a haDb
      have hane : a.id ≠ newId := hfresh a haDb
      simp [he_media, he_profile, he_id, hane]
    rw [h1, h2]
  have hmisEq : l.length ≠ (db.filter (fun r => r.media == inst.media && r.profile == inst.profile &&
        r.chunks_info == inst.chunks_info)).length →
      Cinemata.encoding_file_save parse db inst newId now out_name concat_out = Except.ok db := by
    intro hmis
    rw [hrun]
    unfold Cinemata.recount_reconcile
    rw [if_neg (by rw [hcount]; simpa using hmis)]
    rw [List.filter_append]
    have h1 : [Cinemata.assembled_encoding db inst newId now out_name concat_out].filter
        (fun r => r.id != (Cinemata.assembled_encoding db inst newId now out_name concat_out).id) = [] := by
      simp
    have h2 : db.filter
        (fun r => r.id != (Cinemata.assembled_encoding db inst newId now out_name concat_out).id) = db := by
      apply List.filter_eq_self.mpr
      intro a haDb
      simp [he_id, hfresh a haDb]
    rw [h1, h2, List.append_nil]
  refine ⟨hmatchEq, hmisEq, ?_⟩
  intro res hres
  by_cases hm : l.length = (db.filter (fun r => r.media == inst.media && r.profile == inst.profile &&
      r.chunks_info == inst.chunks_info)).length
  · have hres2 : ((db.filter (fun r => !(r.media == inst.media && r.profile == inst.profile)))
        ++ [Cinemata.assembled_encoding db inst newId now out_name concat_out]) = res := by
      have := (hmatchEq hm).symm.trans hres
      exact Except.ok.inj this
    rw [← hres2, ncc_append]
    have hz : Cinemata.nonchunk_success_count
        (db.filter (fun r => !(r.media == inst.media && r.profile == inst.profile)))
        inst.media inst.profile = 0 := by
      unfold Cinemata.nonchunk_success_count
      rw [List.length_eq_zero]
      apply List.filter_eq_nil_iff.mpr
      intro a ha
      have hmem := List.mem_filter.mp ha
      have hfalse : (a.media == inst.media && a.profile == inst.profile) = false := by
        cases hcase : (a.media == inst.media && a.profile == inst.profile)
        · rfl
        · exfalso
          have h2 := hmem.2
          rw [hcase] at h2
          simp at h2
      simp [hfalse]
    have ho : Cinemata.nonchunk_success_count
        [Cinemata.assembled_encoding db inst newId now out_name concat_out]
        inst.media inst.profile = 1 := by
      unfold Cinemata.nonchunk_success_count
      simp [List.filter_cons, he_media, he_profile, he_chunk, he_status]
    rw [hz, ho]
    exact le_max_left _ _
  · have hres2 : db = res := Except.ok.inj ((hmisEq hm).symm.trans hres)
    rw [← hres2]
    exact le_max_right _ _

/-- C1 witness: the amended theorem applied to the concrete matching
scenario. -/
theorem C1_witness :
    Cinemata.encoding_file_save c1_parse c1_db c1_inst 100 20 "out.mp4" "ff" =
      Except.ok ((c1_db.filter (fun r => !(r.media == c1_inst.media && r.profile == c1_inst.profile)))
        ++ [Cinemata.assembled_encoding c1_db c1_inst 100 20 "out.mp4" "ff"]) :=
  (C1_amended c1_parse c1_db c1_inst 100 20 "out.mp4" "ff" ["c1"]
    rfl rfl (by decide) (by decide) rfl (by decide) (by decide)).1 (by decide)

/-- C2 counterexample: the claim requires every expected boundary to be
present exactly once among the siblings for the set to count as complete; here
the single boundary "a" appears twice among the siblings and the completeness
check nevertheless returns true. -/
theorem C2_counterexample :
    Cinemata.is_complete ["a"] [c2_row_a, c2_row_b] = true ∧
    ([c2_row_a, c2_row_b].filter (fun r => r.chunk_file_path == "a")).length = 2 := by
  constructor <;> rfl

/-- C2 (amended): the Coordinator completeness check returns true exactly when
every expected manifest boundary is present at least once among the sibling
rows and every sibling row has a stored output artifact; consequently it
returns false whenever some expected boundary lacks a sibling row, or some
sibling lacks an artifact (an empty output path counts as incomplete),
regardless of how many sibling rows exist. -/
theorem C2_amended (orig_chunks : List String) (chunks : List Cinemata.Encoding) :
    (Cinemata.is_complete orig_chunks chunks = true ↔
      ((∀ c ∈ orig_chunks, ∃ r ∈ chunks, r.chunk_file_path = c) ∧
       (∀ r ∈ chunks, r.media_file ≠ ""))) ∧
    ((∃ c ∈ orig_chunks, ∀ r ∈ chunks, r.chunk_file_path ≠ c) →
      Cinemata.is_complete orig_chunks chunks = false) ∧
    ((∃ r ∈ chunks, r.media_file = "") →
      Cinemata.is_complete orig_chunks chunks = false) := by
  have hiff : Cinemata.is_complete orig_chunks chunks = true ↔
      ((∀ c ∈ orig_chunks, ∃ r ∈ chunks, r.chunk_file_path = c) ∧
       (∀ r ∈ chunks, r.media_file ≠ "")) := by
    unfold Cinemata.is_complete
    simp [List.all_eq_true, List.any_eq_true]
  refine ⟨hiff, ?_, ?_⟩
  · rintro ⟨c, hc, hnone⟩
    rcases Bool.eq_false_or_eq_true (Cinemata.is_complete orig_chunks chunks) with h | h
    · exfalso
      obtain ⟨r, hr, hre⟩ := (hiff.mp h).1 c hc
      exact hnone r hr hre
    · exact h
  · rintro ⟨r, hr, hre⟩
    rcases Bool.eq_false_or_eq_true (Cinemata.is_complete orig_chunks chunks) with h | h
    · exact absurd hre ((hiff.mp h).2 r hr)
    · exact h

/-- C2 witness: a manifest boundary with no sibling row makes the check return
false. -/
theorem C2_witness : Cinemata.is_complete ["a"] [] = false :=
  (C2_amended ["a"] []).2.1 ⟨"a", by decide, fun r hr => absurd hr (List.not_mem_nil r)⟩

/-- C3: the claim says every chunk job transitioning to fail makes the
Coordinator synthesize a non-chunk fail job and delete the other jobs of the
pair, leaving no success job.  The code instead evaluates
`[f.media_file.path for f in chunks]` before any guard; on a failed chunk with
no stored artifact (the normal case) this raises ValueError, nothing is
synthesized or deleted, and the pre-existing success job survives. -/
theorem C3_fail_path_raises :
    Cinemata.encoding_file_save (fun _ => none) [c3_inst, c3_success] c3_inst 9 9 "o" "s" =
      Except.error "ValueError: The media_file attribute has no file associated with it." ∧
    c3_inst.chunk = true ∧ c3_inst.status = "fail" ∧ c3_inst.media_file = "" ∧
    c3_success ∈ [c3_inst, c3_success] ∧ c3_success.status = "success" ∧
    c3_success.chunk = false := by
  refine ⟨rfl, rfl, rfl, rfl, by decide, rfl, rfl⟩

/-- C4: the media-level aggregate encoding status is a pure function of the
set of statuses of the non-chunk mp4 jobs of the media, with precedence:
no jobs gives pending; any success gives success; otherwise any running gives
running; otherwise fail. -/
theorem C4_aggregate_status (profiles : List Cinemata.EncodeProfile) (db : List Cinemata.Encoding) (media : Nat) :
    (Cinemata.mp4_statuses profiles db media = [] →
        Cinemata.set_encoding_status profiles db media = "pending") ∧
    ("success" ∈ Cinemata.mp4_statuses profiles db media →
        Cinemata.set_encoding_status profiles db media = "success") ∧
    (Cinemata.mp4_statuses profiles db media ≠ [] →
        "success" ∉ Cinemata.mp4_statuses profiles db media →
        "running" ∈ Cinemata.mp4_statuses profiles db media →
        Cinemata.set_encoding_status profiles db media = "running") ∧
    (Cinemata.mp4_statuses profiles db media ≠ [] →
        "success" ∉ Cinemata.mp4_statuses profiles db media →
        "running" ∉ Cinemata.mp4_statuses profiles db media →
        Cinemata.set_encoding_status profiles db media = "fail") ∧
    (∀ l2 : List String, (∀ s, s ∈ Cinemata.mp4_statuses profiles db media ↔ s ∈ l2) →
        Cinemata.set_encoding_status profiles db media = Cinemata.status_resolver l2) := by
  refine ⟨?_, ?_, ?_, ?_, ?_⟩
  · intro h; simp [Cinemata.set_encoding_status, Cinemata.status_resolver, h]
  · intro h
    have hne : Cinemata.mp4_statuses profiles db media ≠ [] := by
      intro hc; rw [hc] at h; exact absurd h (List.not_mem_nil _)
    simp [Cinemata.set_encoding_status, Cinemata.status_resolver, h, hne]
  · intro hne hs hr
    simp [Cinemata.set_encoding_status, Cinemata.status_resolver, hne, hs, hr]
  · intro hne hs hr
    simp [Cinemata.set_encoding_status, Cinemata.status_resolver, hne, hs, hr]
  · intro l2 hm
    exact status_resolver_set_congr _ _ hm

/-- C4 witness: statuses fail, success and running together resolve to
success. -/
theorem C4_witness : Cinemata.set_encoding_status c4_profiles c4_db 0 = "success" :=
  (C4_aggregate_status c4_profiles c4_db 0).2.1 (by decide)

/-- C5: for every duration at most the chunk threshold (equality included:
the comparison is strict greater-than), Media.encode produces no chunking
request and no chunk-flagged job: every profile surviving the skip rule
becomes exactly one whole-file dispatch. -/
theorem C5_below_threshold (st : Cinemata.EncodeSettings) (d : Int) (h : Nat)
    (profiles : List Cinemata.EncodeProfile) (ck : Bool)
    (hd : d ≤ st.chunkize_video_duration) :
    Cinemata.encode st d h profiles ck =
      (profiles.filter (fun p => !(Cinemata.skip_profile st h p))).map
        (fun p => Cinemata.Dispatch.encode_media p.id false (Cinemata.whole_priority st p)) ∧
    (∀ a ∈ Cinemata.encode st d h profiles ck,
        ∃ pid pr, a = Cinemata.Dispatch.encode_media pid false pr) ∧
    (∀ p ∈ profiles, Cinemata.skip_profile st h p = false →
        Cinemata.Dispatch.encode_media p.id false (Cinemata.whole_priority st p) ∈
          Cinemata.encode st d h profiles ck) := by
  have hcond : ¬ (st.chunkize_video_duration < d ∧ ck = true) := by
    rintro ⟨hlt, _⟩
    exact absurd hd (not_le.mpr hlt)
  have heq : Cinemata.encode st d h profiles ck =
      (profiles.filter (fun p => !(Cinemata.skip_profile st h p))).map
        (fun p => Cinemata.Dispatch.encode_media p.id false (Cinemata.whole_priority st p)) := by
    unfold Cinemata.encode
    exact if_neg hcond
  refine ⟨heq, ?_, ?_⟩
  · intro a ha
    rw [heq] at ha
    obtain ⟨p, _, hpa⟩ := List.mem_map.mp ha
    exact ⟨p.id, Cinemata.whole_priority st p, hpa.symm⟩
  · intro p hp hskip
    rw [heq]
    apply List.mem_map.mpr
    refine ⟨p, ?_, rfl⟩
    apply List.mem_filter.mpr
    exact ⟨hp, by simp [hskip]⟩

/-- C5 witness: at a duration exactly equal to the threshold the gif profile
is dispatched as a whole-file job (no chunking). -/
theorem C5_witness :
    Cinemata.Dispatch.encode_media 2 false 0 ∈ Cinemata.encode c5_st 3600 720 c5_profiles true :=
  (C5_below_threshold c5_st 3600 720 c5_profiles true (by decide)).2.2 c5_gif (by decide) (by decide)

/-- C6: for every duration exceeding the chunk threshold, gif profiles are
removed from the chunked set and each dispatched as a single whole-file job
whose created row is not chunk-flagged, while the remaining profiles are sent
together as exactly one chunking request (no individual chunk job is
dispatched). -/
theorem C6_above_threshold (st : Cinemata.EncodeSettings) (d : Int) (h : Nat)
    (profiles : List Cinemata.EncodeProfile)
    (hd : st.chunkize_video_duration < d) :
    (∀ p ∈ profiles, p.extension = "gif" →
        Cinemata.Dispatch.encode_media p.id false 0 ∈ Cinemata.encode st d h profiles true) ∧
    ((Cinemata.encode st d h profiles true).filterMap
        (fun a => match a with
          | Cinemata.Dispatch.chunkize_media ids => some ids
          | Cinemata.Dispatch.encode_media _ _ _ => none) =
      [(profiles.filter (fun p => p.extension != "gif")).map (fun p => p.id)]) ∧
    (∀ pid b pr, Cinemata.Dispatch.encode_media pid b pr ∈ Cinemata.encode st d h profiles true →
        b = false ∧ ∃ p ∈ profiles, p.id = pid ∧ p.extension = "gif") := by
  have heq : Cinemata.encode st d h profiles true =
      ((profiles.filter (fun p => p.extension == "gif")).map
        (fun p => Cinemata.Dispatch.encode_media p.id false 0))
      ++ [Cinemata.Dispatch.chunkize_media
            ((profiles.filter (fun p => p.extension != "gif")).map (fun p => p.id))] := by
    unfold Cinemata.encode
    exact if_pos ⟨hd, rfl⟩
  refine ⟨?_, ?_, ?_⟩
  · intro p hp hgif
    rw [heq]
    apply List.mem_append_left
    apply List.mem_map.mpr
    refine ⟨p, ?_, rfl⟩
    exact List.mem_filter.mpr ⟨hp, by simp [hgif]⟩
  · rw [heq]
    rw [List.filterMap_append]
    have h1 : ((profiles.filter (fun p => p.extension == "gif")).map
        (fun p => Cinemata.Dispatch.encode_media p.id false 0)).filterMap
        (fun a => match a with
          | Cinemata.Dispatch.chunkize_media ids => some ids
          | Cinemata.Dispatch.encode_media _ _ _ => none) = [] := by
      apply List.filterMap_eq_nil_iff.mpr
      intro a ha
      obtain ⟨p, _, hpa⟩ := List.mem_map.mp ha
      rw [← hpa]
    rw [h1]
    rfl
  · intro pid b pr hmem
    rw [heq] at hmem
    rcases List.mem_append.mp hmem with hgifs | hreq
    · obtain ⟨p, hpf, hpa⟩ := List.mem_map.mp hgifs
      have hp := List.mem_filter.mp hpf
      cases hpa
      exact ⟨rfl, p, hp.1, rfl, by simpa using hp.2⟩
    · simp at hreq

/-- C6 witness: in the 7200s-over-3600s scenario the gif profile is dispatched
as one whole-file non-chunk job. -/
theorem C6_witness :
    Cinemata.Dispatch.encode_media 3 false 0 ∈ Cinemata.encode c6_st 7200 720 c6_profiles true :=
  (C6_above_threshold c6_st 7200 720 c6_profiles (by decide)).1 c6_gif (by decide) rfl

/-- C7: with a known positive source height, a non-gif profile is skipped
exactly when its target resolution exceeds the source height and is not in the
minimum-resolutions allow-set; gif profiles are never skipped by height; and
the dispatch priority is the elevated tier 9 exactly when the profile
resolution is in the minimum-resolutions set, and 0 otherwise. -/
theorem C7_skip_and_priority (st : Cinemata.EncodeSettings) (h : Nat) (p : Cinemata.EncodeProfile)
    (hh : 0 < h) :
    (∀ r : Int, p.extension ≠ "gif" → p.resolution = some r →
        (Cinemata.skip_profile st h p = true ↔
          ((h : Int) < r ∧ r ∉ st.minimum_resolutions_to_encode))) ∧
    (p.extension = "gif" → Cinemata.skip_profile st h p = false) ∧
    (Cinemata.whole_priority st p = 9 ↔
        Cinemata.resolution_in p.resolution st.minimum_resolutions_to_encode = true) ∧
    (Cinemata.whole_priority st p = 0 ↔
        Cinemata.resolution_in p.resolution st.minimum_resolutions_to_encode = false) := by
  have hne : h ≠ 0 := Nat.pos_iff_ne_zero.mp hh
  refine ⟨?_, ?_, ?_, ?_⟩
  · intro r hext hres
    unfold Cinemata.skip_profile
    rw [hres]
    simp [hext, hne, Cinemata.resolution_in, hres, List.elem_iff]
  · intro hgif
    unfold Cinemata.skip_profile
    simp [hgif]
  · unfold Cinemata.whole_priority
    by_cases hm : Cinemata.resolution_in p.resolution st.minimum_resolutions_to_encode = true
    · simp [hm]
    · simp [hm, Bool.eq_false_iff.mpr hm]
  · unfold Cinemata.whole_priority
    by_cases hm : Cinemata.resolution_in p.resolution st.minimum_resolutions_to_encode = true
    · simp [hm]
    · simp [hm, Bool.eq_false_iff.mpr hm]

/-- C7 witness: a 1080p profile is skipped for a 720p source when 1080 is not
in the allow-set. -/
theorem C7_witness : Cinemata.skip_profile c7_st 720 c7_p = true :=
  ((C7_skip_and_priority c7_st 720 c7_p (by decide)).1 1080 (by decide) rfl).mpr ⟨by decide, by decide⟩

/-- C8: set_progress stores the value and reports true exactly when the
integer lies in 0..100; any other value is rejected by return value with the
row left unchanged (and no exception: the embedding is a total function). -/
theorem C8_progress_bounds (e : Cinemata.Encoding) (p : Int) :
    ((Cinemata.set_progress e p).1 = true ↔ 0 ≤ p ∧ p ≤ 100) ∧
    ((Cinemata.set_progress e p).1 = true → (Cinemata.set_progress e p).2 = { e with progress := p }) ∧
    ((Cinemata.set_progress e p).1 = false → (Cinemata.set_progress e p).2 = e) := by
  unfold Cinemata.set_progress
  by_cases h : 0 ≤ p ∧ p ≤ 100 <;> simp [h]

/-- C8 witness: 50 is accepted, 101 leaves the row unchanged. -/
theorem C8_witness :
    ((Cinemata.set_progress c8_row 50).1 = true) ∧
    ((Cinemata.set_progress c8_row 101).2 = c8_row) := by
  constructor
  · exact (C8_progress_bounds c8_row 50).1.mpr (by decide)
  · exact (C8_progress_bounds c8_row 101).2.2 (by decide)

/-- C9: when the probe classifies the source as video the stored duration is
the probed duration rounded to a nearest second (distance at most 1/2); when
it classifies it as audio the stored duration is the probed duration truncated
to an integer number of seconds and the encoding status becomes success
immediately; image and pdf kinds become success immediately and no transcoding
follows for them. -/
theorem C9_probe_durations (kind : Option String) (ret : Cinemata.MediaFileInfo) (m : Cinemata.MediaState) :
    ((kind ≠ some "image" ∧ kind ≠ some "pdf" ∧
      (kind = none → m.media_type ≠ "image" ∧ m.media_type ≠ "pdf")) →
      (ret.is_video = true →
        (Cinemata.set_media_type kind ret m).duration = Cinemata.pyRound ret.video_duration ∧
        |ret.video_duration - ((Cinemata.set_media_type kind ret m).duration : ℚ)| ≤ 1/2) ∧
      (ret.is_video = false → ret.is_audio = true →
        (Cinemata.set_media_type kind ret m).duration = Cinemata.pyTrunc ret.audio_duration ∧
        (Cinemata.set_media_type kind ret m).encoding_status = "success" ∧
        (0 ≤ ret.audio_duration →
          (((Cinemata.set_media_type kind ret m).duration : ℚ) ≤ ret.audio_duration ∧
           ret.audio_duration < ((Cinemata.set_media_type kind ret m).duration : ℚ) + 1)))) ∧
    ((kind = some "image" ∨ kind = some "pdf") →
      (Cinemata.set_media_type kind ret m).encoding_status = "success" ∧
      Cinemata.media_init_encodes (Cinemata.set_media_type kind ret m) = false) := by
  constructor
  · rintro ⟨hk1, hk2, hk3⟩
    have hreach := kind_media_type_reach kind m hk1 hk2 hk3
    have hcond : ¬ ((Cinemata.kind_media_type kind m).media_type = "image" ∨
        (Cinemata.kind_media_type kind m).media_type = "pdf") := by
      rintro (h | h)
      · exact hreach.1 h
      · exact hreach.2 h
    constructor
    · intro hv
      have hd : (Cinemata.set_media_type kind ret m).duration =
          Cinemata.pyRound ret.video_duration := by
        unfold Cinemata.set_media_type
        simp only [if_neg hcond, hv]
        simp
      refine ⟨hd, ?_⟩
      rw [hd]
      exact pyRound_dist_le_half ret.video_duration
    · intro hv ha
      have hd : (Cinemata.set_media_type kind ret m).duration =
          Cinemata.pyTrunc ret.audio_duration := by
        unfold Cinemata.set_media_type
        simp only [if_neg hcond, hv, ha]
        simp
      have hs : (Cinemata.set_media_type kind ret m).encoding_status = "success" := by
        unfold Cinemata.set_media_type
        simp only [if_neg hcond, hv, ha]
        simp
      refine ⟨hd, hs, ?_⟩
      intro hnn
      rw [hd]
      unfold Cinemata.pyTrunc
      rw [if_neg (not_lt.mpr hnn)]
      exact ⟨Int.floor_le ret.audio_duration, Int.lt_floor_add_one ret.audio_duration⟩
  · rintro (h | h) <;> subst h <;> constructor <;> rfl

/-- C9 witness: a probed video duration of 3.5 seconds is stored as 4. -/
theorem C9_witness : (Cinemata.set_media_type none c9_ret c9_m).duration = 4 := by
  have h := ((C9_probe_durations none c9_ret c9_m).1
    ⟨by decide, by decide, fun _ => ⟨by decide, by decide⟩⟩).1 rfl
  rw [h.1]
  show Cinemata.pyRound (7/2 : ℚ) = 4
  unfold Cinemata.pyRound
  norm_num

/-- C10: a successful chunk job with a stored artifact whose manifest cannot
be parsed is itself deleted and coordination aborts: the resulting database is
the old one minus the triggering row, so no synthesized job appears. -/
theorem C10_unparsable_manifest (parse : String → Option (List String)) (db : List Cinemata.Encoding)
    (inst : Cinemata.Encoding) (newId now : Nat) (out_name concat_out : String)
    (hchunk : inst.chunk = true) (hstatus : inst.status = "success")
    (hfile : inst.media_file ≠ "") (hparse : parse inst.chunks_info = none) :
    Cinemata.encoding_file_save parse db inst newId now out_name concat_out =
      Except.ok (db.filter (fun r => r.id != inst.id)) ∧
    (∀ r ∈ db.filter (fun r => r.id != inst.id), r ∈ db ∧ r.id ≠ inst.id) := by
  constructor
  · unfold Cinemata.encoding_file_save
    simp [hchunk, hstatus, hfile, hparse]
  · intro r hr
    have := List.mem_filter.mp hr
    refine ⟨this.1, ?_⟩
    simpa using this.2

/-- C10 witness: the theorem applied to a concrete unparsable manifest. -/
theorem C10_witness :
    Cinemata.encoding_file_save (fun _ => none) [c10_inst, c10_other] c10_inst 9 9 "o" "s" =
      Except.ok [c10_other] := by
  have h := C10_unparsable_manifest (fun _ => none) [c10_inst, c10_other] c10_inst 9 9 "o" "s"
      (by rfl) (by rfl) (by decide) (by rfl)
  exact h.1
